import Mathlib

/-!
Verification development for the ContaCibo calorie tracker (src/app.py).

The pure logic of the application is embedded shallowly:

* Python strings are Lean `String`s; the Python primitives used by the code
  (`str.strip`, `str.replace`, `str.lower`, `"c" in s`, `str.split`,
  `float(...)`, `round(...)`, `int(...)`) are modelled by structurally
  recursive Lean functions over `List Char`, so that every definition
  evaluates inside the kernel.
* Python floats are modelled as exact rationals (`ℚ`); Python ints as `ℤ`.
* `parse_number`, `safe_int` and `calc_items` are translated line by line
  from src/app.py; the foods catalog (a module-level dataframe in the
  source) is passed explicitly as a list of rows.
-/

set_option maxRecDepth 4000

/-- Whitespace characters stripped by Python's `str.strip()` that are relevant
here: ASCII whitespace, vertical tab, form feed and the non-breaking space
`" "` (all of which satisfy Python's `str.isspace`). -/
def isPySpace (c : Char) : Bool :=
  c == ' ' || c == '\t' || c == '\n' || c == '\r' || c == '\x0b' || c == '\x0c' || c == ' '

/-- Model of Python `str.strip()` at the level of character lists: drop
whitespace from both ends. -/
def trimChars (l : List Char) : List Char :=
  List.rdropWhile isPySpace (List.dropWhile isPySpace l)

/-- Model of Python `str.strip()`. -/
def pythonStrip (s : String) : String :=
  String.mk (trimChars s.toList)

/-- Model of Python `s.replace(a, b)` for one-character `a` and `b` (the only
uses in src/app.py lines 53-57 are one-character patterns). -/
def replaceChar (a b : Char) (s : String) : String :=
  String.mk (s.toList.map (fun c => if c == a then b else c))

/-- Model of Python `s.replace(a, "")` for a one-character `a`. -/
def removeChar (a : Char) (s : String) : String :=
  String.mk (s.toList.filter (fun c => !(c == a)))

/-- Model of Python `a in s` for a one-character `a`. -/
def strContains (s : String) (c : Char) : Bool :=
  s.toList.contains c

/-- Model of Python `str.lower()` (the inputs of interest are ASCII). -/
def strToLower (s : String) : String :=
  String.mk (s.toList.map Char.toLower)

/-- Numeric value of a list of decimal digit characters. -/
def digitsToNat (ds : List Char) : ℕ :=
  ds.foldl (fun n c => 10 * n + (c.toNat - 48)) 0

/-- Exponent part of a floating-point literal: either nothing, or
`e`/`E`, an optional sign and a nonempty digit string, consuming the whole
remaining input.  `m` is the value of the mantissa already read. -/
def parseExpPart (m : ℚ) : List Char → Option ℚ
  | [] => some m
  | c :: rest =>
    if c == 'e' || c == 'E' then
      let sr : ℤ × List Char :=
        match rest with
        | '+' :: r => (1, r)
        | '-' :: r => (-1, r)
        | r => (1, r)
      let ds := sr.2.takeWhile Char.isDigit
      let rest3 := sr.2.dropWhile Char.isDigit
      if ds.isEmpty || !rest3.isEmpty then none
      else some (m * (10 : ℚ) ^ (sr.1 * (digitsToNat ds : ℤ)))
    else none

/-- Mantissa of a floating-point literal: `digits`, `digits.`, `digits.digits`
or `.digits`, followed by an optional exponent part. -/
def parseMantissa (cs : List Char) : Option ℚ :=
  let intDigits := cs.takeWhile Char.isDigit
  let rest1 := cs.dropWhile Char.isDigit
  match rest1 with
  | '.' :: rest2 =>
    let fracDigits := rest2.takeWhile Char.isDigit
    let rest3 := rest2.dropWhile Char.isDigit
    if intDigits.isEmpty && fracDigits.isEmpty then none
    else
      parseExpPart ((digitsToNat intDigits : ℚ) + (digitsToNat fracDigits : ℚ) / (10 : ℚ) ^ fracDigits.length) rest3
  | rest =>
    if intDigits.isEmpty then none
    else parseExpPart (digitsToNat intDigits : ℚ) rest

/-- Model of Python's builtin `float(s)` on finite decimal literals (an
optionally signed decimal numeral with optional fraction and exponent,
surrounded by optional whitespace); `none` models the `ValueError` raised on
any other input.  The special forms `inf`/`nan` and digit-group underscores,
which never denote a calorie value, are out of scope and treated as errors. -/
def pyFloat (s : String) : Option ℚ :=
  let cs := trimChars s.toList
  match cs with
  | [] => none
  | '+' :: rest => parseMantissa rest
  | '-' :: rest => (parseMantissa rest).map (fun q => -q)
  | _ => parseMantissa cs

/-- Normalization of decimal/thousands separators, from src/app.py lines
54-57: with both `.` and `,` present, `.` is removed and `,` becomes `.`;
with only `,` present, `,` becomes `.`; otherwise the string is unchanged. -/
def normalizeSeps (s : String) : String :=
  if strContains s '.' ∧ strContains s ',' then replaceChar ',' '.' (removeChar '.' s)
  else if strContains s ',' ∧ ¬ strContains s '.' then replaceChar ',' '.' s
  else s

/-- String handed to the separator normalization by `parse_number`: the
stripped input, with non-breaking spaces replaced by plain spaces, stripped
again (src/app.py line 53). -/
def sepInput (x : String) : String :=
  pythonStrip (replaceChar ' ' ' ' (pythonStrip x))

/-- Translation of `parse_number` (src/app.py lines 49-58).  `none` models the
ValueError (`InvalidNumberFormat`) raised by `float`. -/
def parse_number (x : String) : Option ℚ :=
  let s := pythonStrip x
  if s = "" ∨ strToLower s = "none" then some 0
  else pyFloat (normalizeSeps (sepInput x))

/-- Model of Python's builtin `round` on our exact rationals: round to the
nearest integer, ties to the nearest even integer. -/
def pythonRound (q : ℚ) : ℤ :=
  let f := ⌊q⌋
  if q - f < 1 / 2 then f
  else if 1 / 2 < q - f then f + 1
  else if f % 2 = 0 then f else f + 1

/-- Model of Python's builtin `int()` on a rational: truncation toward zero. -/
def pyTrunc (q : ℚ) : ℤ :=
  if 0 ≤ q then ⌊q⌋ else -⌊-q⌋

/-- Translation of `safe_int` (src/app.py lines 61-65). -/
def safe_int (x : String) : Option ℤ :=
  let s := pythonStrip x
  if s = "" ∨ strToLower s = "none" then some 0
  else (parse_number s).map pythonRound

/-- Rounding a rational that happens to be an integer is the identity. -/
theorem pythonRound_intCast (n : ℤ) : pythonRound (n : ℚ) = n := by
  simp [pythonRound, Int.floor_intCast]

/-- Truncating a rational that happens to be a natural number is the
identity. -/
theorem pyTrunc_natCast (n : ℕ) : pyTrunc (n : ℚ) = n := by
  simp [pyTrunc]

example : parse_number "29,59" = some (2959 / 100) := by
  have h : parse_number "29,59" = some (((29 : ℕ) : ℚ) + ((59 : ℕ) : ℚ) / (10 : ℚ) ^ (2 : ℕ)) := rfl
  rw [h]; norm_num

example : parse_number "1.234,56" = some (30864 / 25) := by
  have h : parse_number "1.234,56" =
      some (((1234 : ℕ) : ℚ) + ((56 : ℕ) : ℚ) / (10 : ℚ) ^ (2 : ℕ)) := rfl
  rw [h]; norm_num

example : parse_number "" = some 0 := rfl
example : parse_number "None" = some 0 := rfl
example : parse_number "abc" = none := rfl

example : safe_int "12,0" = some 12 := by
  have h : safe_int "12,0" =
      some (pythonRound (((12 : ℕ) : ℚ) + ((0 : ℕ) : ℚ) / (10 : ℚ) ^ (1 : ℕ))) := rfl
  rw [h, show (((12 : ℕ) : ℚ) + ((0 : ℕ) : ℚ) / (10 : ℚ) ^ (1 : ℕ)) = ((12 : ℤ) : ℚ) by norm_num,
    pythonRound_intCast]

/-- Row of the `foods` worksheet as loaded by `load_foods_df`
(src/app.py lines 132-151): a food name, a pricing-mode string (the `tipo`
column: `"100g"` or `"unidad"` in the UI, but any string can be stored) and a
calorie value. -/
structure Food where
  alimento : String
  tipo : String
  valor_kcal : ℚ
deriving Repr, DecidableEq

/-- Entry of the `detail_json` payload built by `calc_items`
(src/app.py lines 226-234). -/
structure ItemDetail where
  alimento : String
  cantidad : ℤ
  tipo : String
  valor_kcal : ℚ
  kcal : ℚ
deriving Repr, DecidableEq

/-- Payload returned by `calc_items` (src/app.py lines 240-243). -/
structure Payload where
  items : List ItemDetail
  kcal_libres : ℤ
deriving Repr, DecidableEq

/-- Loop of `calc_items` over the requested lines (src/app.py lines 210-234):
accumulated total, detail lines and detail-json entries, in input order.
The dataframe row lookup `foods[foods["alimento"] == alimento]; row.iloc[0]`
is the first catalog row whose name matches. -/
def calcLines (foods : List Food) : List (String × ℚ) → ℚ × List String × List ItemDetail
  | [] => (0, [], [])
  | (alimento, cantidad) :: rest =>
    let prev := calcLines foods rest
    if alimento = "" ∨ cantidad ≤ 0 then prev
    else
      match List.find? (fun f => f.alimento == alimento) foods with
      | none => prev
      | some food =>
        let kcal_item :=
          if food.tipo = "100g" then cantidad / 100 * food.valor_kcal
          else cantidad * food.valor_kcal
        (kcal_item + prev.1,
         (alimento ++ ": " ++ toString (pythonRound kcal_item) ++ " kcal") :: prev.2.1,
         { alimento := alimento, cantidad := pyTrunc cantidad, tipo := food.tipo,
           valor_kcal := food.valor_kcal, kcal := kcal_item } :: prev.2.2)

/-- Translation of `calc_items` (src/app.py lines 205-245), with the
module-level `foods` catalog passed explicitly.  The Python condition
`if kcal_libres and kcal_libres > 0` is truthiness of the int conjoined with
the comparison. -/
def calc_items (foods : List Food) (rows_data : List (String × ℚ)) (kcal_libres : ℤ) :
    ℚ × List String × Payload :=
  let r := calcLines foods rows_data
  if kcal_libres ≠ 0 ∧ 0 < kcal_libres then
    (r.1 + (kcal_libres : ℚ),
     r.2.1 ++ ["Kcal libres: " ++ toString kcal_libres ++ " kcal"],
     { items := r.2.2, kcal_libres := kcal_libres })
  else
    (r.1, r.2.1, { items := r.2.2, kcal_libres := kcal_libres })

/-- Daily calorie goal for a normal day (src/app.py line 14). -/
def META_NORMAL : ℤ := 1700

/-- Daily calorie goal for a gym day (src/app.py line 15). -/
def META_GYM : ℤ := 1950

/-- Goal selection for a day, from `upsert_daily_status` (src/app.py line
267): `meta = META_GYM if gym else META_NORMAL`. -/
def goal_for (is_gym_day : Bool) : ℤ :=
  if is_gym_day then META_GYM else META_NORMAL

/-- Delta of the logged total against the daily goal (src/app.py line 586):
`delta = float(total_dia - meta_current)`. -/
def delta (total_logged : ℚ) (goal : ℤ) : ℚ :=
  total_logged - goal

/-- Modelled from the spec: the error kinds of the free-text calculator
(spec section 4.3/7); `calculate_from_text` itself does not appear in
src/app.py (it belongs to another iteration of the repository). -/
inductive TextErr where
  | unknownItem : String → TextErr
  | wrongPricingMode : String → TextErr
  | unparsableLine : String → TextErr
deriving Repr, DecidableEq

/-- Split of a string at a separator character, keeping empty pieces;
auxiliary for the free-text line splitting. -/
def splitChar (sep : Char) : List Char → List Char → List (List Char)
  | [], acc => [acc.reverse]
  | c :: rest, acc =>
    if c == sep then acc.reverse :: splitChar sep rest []
    else splitChar sep rest (c :: acc)

/-- Split of a string at a separator character. -/
def splitStr (sep : Char) (s : String) : List String :=
  (splitChar sep s.toList []).map String.mk

/-- Test whether `suf` is a suffix of `s`. -/
def strEndsWith (s suf : String) : Bool :=
  List.isSuffixOf suf.toList s.toList

/-- Drop of the last `n` characters of a string. -/
def dropRightStr (s : String) (n : ℕ) : String :=
  String.mk (s.toList.take (s.toList.length - n))

/-- Modelled from the spec: catalog lookup of the free-text calculator with
the trailing-`s` singularization fallback (spec section 4.3, rule 2): if the
name is absent and ends in `s`, the name without the trailing `s` is tried. -/
def lookupItem (foods : List Food) (name : String) : Option Food :=
  match List.find? (fun f => f.alimento == name) foods with
  | some f => some f
  | none =>
    if strEndsWith name "s" then
      List.find? (fun f => f.alimento == dropRightStr name 1) foods
    else none

/-- Modelled from the spec: evaluation of one free-text line (spec section
4.3), tried in order: a kcal literal `<number>(kc|kcal)`, a weight form
`<name> <number>(g|gr)` requiring the per-100g pricing mode, and a unit form
`<name> <number>` requiring the per-unit pricing mode.  Units are matched as
space-separated tokens, with the kcal unit also accepted attached to its
number. -/
def calcTextLine (foods : List Food) (line : String) : Except TextErr ℚ :=
  let toks := (splitStr ' ' line).filter (fun t => !(t == ""))
  match toks with
  | [t] =>
    if strEndsWith t "kcal" then
      match pyFloat (dropRightStr t 4) with
      | some q => Except.ok q
      | none => Except.error (TextErr.unparsableLine line)
    else if strEndsWith t "kc" then
      match pyFloat (dropRightStr t 2) with
      | some q => Except.ok q
      | none => Except.error (TextErr.unparsableLine line)
    else Except.error (TextErr.unparsableLine line)
  | [a, b] =>
    if b == "kc" || b == "kcal" then
      match pyFloat a with
      | some q => Except.ok q
      | none => Except.error (TextErr.unparsableLine line)
    else
      match pyFloat b with
      | none => Except.error (TextErr.unparsableLine line)
      | some q =>
        match lookupItem foods a with
        | none => Except.error (TextErr.unknownItem a)
        | some food =>
          if food.tipo = "100g" then Except.error (TextErr.wrongPricingMode a)
          else Except.ok (q * food.valor_kcal)
  | [a, n, u] =>
    if u == "g" || u == "gr" then
      match pyFloat n with
      | none => Except.error (TextErr.unparsableLine line)
      | some q =>
        match lookupItem foods a with
        | none => Except.error (TextErr.unknownItem a)
        | some food =>
          if food.tipo = "100g" then Except.ok (q / 100 * food.valor_kcal)
          else Except.error (TextErr.wrongPricingMode a)
    else Except.error (TextErr.unparsableLine line)
  | _ => Except.error (TextErr.unparsableLine line)

/-- Modelled from the spec: splitting of the raw text into non-empty,
trimmed, lower-cased lines (spec section 4.3). -/
def splitTextLines (raw : String) : List String :=
  ((splitStr '\n' raw).map (fun l => strToLower (pythonStrip l))).filter (fun l => !(l == ""))

/-- Modelled from the spec: evaluation of a list of free-text lines with
all-or-nothing semantics — the first line failure aborts the whole batch
(spec section 4.3). -/
def calcTextLines (foods : List Food) : List String → Except TextErr ℚ
  | [] => Except.ok 0
  | l :: rest =>
    match calcTextLine foods l with
    | Except.error e => Except.error e
    | Except.ok q =>
      match calcTextLines foods rest with
      | Except.error e => Except.error e
      | Except.ok t => Except.ok (q + t)

/-- Modelled from the spec: `calculate_from_text(catalog, raw_text)` (spec
section 4.3), returning `(total, null)` on success and `(null, error)` when
any line fails. -/
def calculate_from_text (foods : List Food) (raw : String) : Option ℚ × Option TextErr :=
  match calcTextLines foods (splitTextLines raw) with
  | Except.ok t => (some t, none)
  | Except.error e => (none, some e)

example : calculate_from_text [⟨"pollo", "100g", 165⟩] "pollo 200 g\nhuevo 2" =
    (none, some (TextErr.unknownItem "huevo")) := rfl
example : calcTextLine [⟨"tomate", "100g", 20⟩] "tomates 100 g" =
    Except.ok (((100 : ℕ) : ℚ) / 100 * 20) := rfl

/-- Dropping leading whitespace after a full trim changes nothing: the first
character of a trimmed nonempty list is not whitespace. -/
theorem dropWhile_trimChars (l : List Char) :
    List.dropWhile isPySpace (trimChars l) = trimChars l := by
  unfold trimChars
  rcases List.rdropWhile_prefix isPySpace (List.dropWhile isPySpace l) with ⟨t, ht⟩
  rw [List.dropWhile_eq_self_iff]
  intro hl
  have hlen : 0 < (List.dropWhile isPySpace l).length := by
    rw [← ht]
    simp only [List.length_append]
    omega
  have hget : (List.rdropWhile isPySpace (List.dropWhile isPySpace l)).get ⟨0, hl⟩ =
      (List.dropWhile isPySpace l).get ⟨0, hlen⟩ := by
    simp only [List.get_eq_getElem]
    exact List.IsPrefix.getElem ⟨t, ht⟩ hl
  rw [hget]
  exact List.dropWhile_get_zero_not isPySpace l hlen

/-- Python's `strip` is idempotent. -/
theorem trimChars_idem (l : List Char) : trimChars (trimChars l) = trimChars l := by
  conv_lhs => rw [trimChars, dropWhile_trimChars, trimChars, List.rdropWhile_idempotent]
  rw [trimChars]

/-- String-level idempotence of the model of Python `str.strip()`. -/
theorem pythonStrip_idem (s : String) : pythonStrip (pythonStrip s) = pythonStrip s := by
  show String.mk (trimChars (trimChars s.toList)) = pythonStrip s
  rw [trimChars_idem]
  rfl

/-- Stripping the input first does not change the result of `parse_number`
(the function strips its input itself). -/
theorem parse_number_pythonStrip (x : String) :
    parse_number (pythonStrip x) = parse_number x := by
  simp only [parse_number, sepInput, pythonStrip_idem]

/-- Unfolding of the `calc_items` loop on a valid line that resolves in the
catalog. -/
theorem calcLines_cons_found (foods : List Food) (name : String) (qty : ℚ)
    (rest : List (String × ℚ)) (food : Food)
    (hvalid : ¬(name = "" ∨ qty ≤ 0))
    (hfind : List.find? (fun f => f.alimento == name) foods = some food) :
    calcLines foods ((name, qty) :: rest) =
      ((if food.tipo = "100g" then qty / 100 * food.valor_kcal else qty * food.valor_kcal)
          + (calcLines foods rest).1,
       (name ++ ": " ++ toString (pythonRound
          (if food.tipo = "100g" then qty / 100 * food.valor_kcal else qty * food.valor_kcal))
          ++ " kcal") :: (calcLines foods rest).2.1,
       { alimento := name, cantidad := pyTrunc qty, tipo := food.tipo,
         valor_kcal := food.valor_kcal,
         kcal := if food.tipo = "100g" then qty / 100 * food.valor_kcal
                 else qty * food.valor_kcal } :: (calcLines foods rest).2.2) := by
  rw [calcLines, if_neg hvalid, hfind]

/-- Unfolding of the `calc_items` loop on a line that is skipped (empty name,
non-positive quantity, or no catalog match). -/
theorem calcLines_cons_skip (foods : List Food) (name : String) (qty : ℚ)
    (rest : List (String × ℚ))
    (h : (name = "" ∨ qty ≤ 0) ∨ List.find? (fun f => f.alimento == name) foods = none) :
    calcLines foods ((name, qty) :: rest) = calcLines foods rest := by
  rw [calcLines]
  rcases h with h | h
  · rw [if_pos h]
  · by_cases h2 : name = "" ∨ qty ≤ 0
    · rw [if_pos h2]
    · rw [if_neg h2, h]

/-- A failing line anywhere in the batch makes the whole batch fail. -/
theorem calcTextLines_error_of_mem (foods : List Food) (ls : List String) (l : String)
    (hmem : l ∈ ls) (herr : ∃ e, calcTextLine foods l = Except.error e) :
    ∃ e, calcTextLines foods ls = Except.error e := by
  induction ls with
  | nil => cases hmem
  | cons a rest ih =>
    rcases herr with ⟨e, he⟩
    cases ha : calcTextLine foods a with
    | error e' => exact ⟨e', by rw [calcTextLines, ha]⟩
    | ok q =>
      have hl : l ∈ rest := by
        rcases List.mem_cons.mp hmem with rfl | h
        · rw [ha] at he
          cases he
        · exact h
      rcases ih hl with ⟨e2, he2⟩
      exact ⟨e2, by rw [calcTextLines, ha, he2]⟩

/-- Python's `round` returns an integer within distance one half of its
argument. -/
theorem pythonRound_nearest (q : ℚ) : |(pythonRound q : ℚ) - q| ≤ 1 / 2 := by
  have h1 : (⌊q⌋ : ℚ) ≤ q := Int.floor_le q
  have h2 : q < ⌊q⌋ + 1 := Int.lt_floor_add_one q
  simp only [pythonRound]
  split_ifs with ha hb hc <;> rw [abs_le] <;> constructor <;> push_cast <;> linarith

/-- Contribution of one requested line to the total, as dictated by the
pricing-mode invariant: zero for skipped lines, otherwise the pricing-mode
formula applied to the first matching catalog row. -/
def lineContribution (foods : List Food) (l : String × ℚ) : ℚ :=
  if l.1 = "" ∨ l.2 ≤ 0 then 0
  else
    match List.find? (fun f => f.alimento == l.1) foods with
    | none => 0
    | some food =>
      if food.tipo = "100g" then l.2 / 100 * food.valor_kcal else l.2 * food.valor_kcal

/-- Total computed by the `calc_items` loop is the sum of the per-line
contributions, in input order. -/
theorem calcLines_fst_eq_sum (foods : List Food) (rows : List (String × ℚ)) :
    (calcLines foods rows).1 = (rows.map (lineContribution foods)).sum := by
  induction rows with
  | nil => simp [calcLines]
  | cons a rest ih =>
    obtain ⟨name, qty⟩ := a
    rw [calcLines]
    by_cases h : name = "" ∨ qty ≤ 0
    · simp only [if_pos h, List.map_cons, List.sum_cons, lineContribution, ih]
      rw [zero_add]
    · rw [if_neg h]
      cases hf : List.find? (fun f => f.alimento == name) foods with
      | none =>
        simp only [List.map_cons, List.sum_cons, lineContribution, ih]
        rw [if_neg h, hf, zero_add]
      | some food =>
        simp only [List.map_cons, List.sum_cons, lineContribution, ih]
        rw [if_neg h, hf]

/-- C1: for every calculation line whose item name resolves in the catalog
and whose quantity is positive, the contribution is `(quantity/100) *
unit_value` when the pricing mode is `"100g"` and `quantity * unit_value`
otherwise; the total is the sum of the line contributions and the breakdown
receives, in input order, the label `"<name>: <round(contribution)> kcal"`;
in particular the catalog `{pollo ↦ 100g@165}` with line `(pollo, 200)`
yields total `330` and `{huevo ↦ unidad@70}` with line `(huevo, 3)` yields
`210`. -/
theorem calc_items_pricing_modes (foods : List Food) (name : String) (qty : ℚ)
    (rest : List (String × ℚ)) (food : Food)
    (hname : name ≠ "") (hqty : 0 < qty)
    (hfind : List.find? (fun f => f.alimento == name) foods = some food) :
    ((calcLines foods ((name, qty) :: rest)).1 =
        (if food.tipo = "100g" then qty / 100 * food.valor_kcal else qty * food.valor_kcal)
          + (calcLines foods rest).1
      ∧ (calcLines foods ((name, qty) :: rest)).2.1 =
        (name ++ ": " ++ toString (pythonRound
            (if food.tipo = "100g" then qty / 100 * food.valor_kcal else qty * food.valor_kcal))
            ++ " kcal") :: (calcLines foods rest).2.1)
  ∧ (∀ rows : List (String × ℚ),
      (calc_items foods rows 0).1 = (rows.map (lineContribution foods)).sum)
  ∧ (calc_items [⟨"pollo", "100g", 165⟩] [("pollo", 200)] 0).1 = 330
  ∧ (calc_items [⟨"huevo", "unidad", 70⟩] [("huevo", 3)] 0).1 = 210 := by
  have hvalid : ¬(name = "" ∨ qty ≤ 0) := by
    push_neg
    exact ⟨hname, hqty⟩
  refine ⟨?_, ?_, ?_, ?_⟩
  · rw [calcLines_cons_found foods name qty rest food hvalid hfind]
    exact ⟨rfl, rfl⟩
  · intro rows
    have h0 : (calc_items foods rows 0).1 = (calcLines foods rows).1 := by
      simp [calc_items]
    rw [h0, calcLines_fst_eq_sum]
  · have h : (calc_items [⟨"pollo", "100g", 165⟩] [("pollo", 200)] 0).1 =
        (200 : ℚ) / 100 * 165 + 0 := rfl
    rw [h]
    norm_num
  · have h : (calc_items [⟨"huevo", "unidad", 70⟩] [("huevo", 3)] 0).1 =
        (3 : ℚ) * 70 + 0 := rfl
    rw [h]
    norm_num

/-- Witness for C1: the pricing-mode law evaluated at the catalog
`{pollo ↦ 100g@165}` and the single line `(pollo, 200)`. -/
theorem calc_items_pricing_modes_witness :
    (calcLines [⟨"pollo", "100g", 165⟩] [("pollo", 200)]).1 =
      (if ("100g" : String) = "100g" then (200 : ℚ) / 100 * 165 else (200 : ℚ) * 165)
        + (calcLines [⟨"pollo", "100g", 165⟩] []).1 :=
  ((calc_items_pricing_modes [⟨"pollo", "100g", 165⟩] "pollo" 200 []
      ⟨"pollo", "100g", 165⟩ (by decide) (by norm_num) rfl).1).1

/-- C2: `parse_number` trims the input (non-breaking space included), maps
the empty string and the literal `none` to `0`, and otherwise normalizes
separators by the case analysis of the source: with both `.` and `,`
present it removes `.` and turns `,` into `.`; with only `,` present it
turns `,` into `.`; otherwise it parses the string as-is; `"1.234,56"`
parses to `1234.56` and `"29,59"` to `29.59`. -/
theorem parse_number_separator_cases (x : String) :
    ((pythonStrip x = "" ∨ strToLower (pythonStrip x) = "none") → parse_number x = some 0)
  ∧ (¬(pythonStrip x = "" ∨ strToLower (pythonStrip x) = "none") →
      ((strContains (sepInput x) '.' ∧ strContains (sepInput x) ',') →
        parse_number x = pyFloat (replaceChar ',' '.' (removeChar '.' (sepInput x))))
    ∧ ((strContains (sepInput x) ',' ∧ ¬ strContains (sepInput x) '.') →
        parse_number x = pyFloat (replaceChar ',' '.' (sepInput x)))
    ∧ (¬ strContains (sepInput x) ',' → parse_number x = pyFloat (sepInput x)))
  ∧ parse_number "1.234,56" = some (30864 / 25)
  ∧ parse_number "29,59" = some (2959 / 100) := by
  refine ⟨fun h => by simp only [parse_number, if_pos h], fun h => ⟨?_, ?_, ?_⟩, ?_, ?_⟩
  · rintro ⟨h1, h2⟩
    simp only [parse_number, if_neg h, normalizeSeps, h1, h2, and_self, if_true]
  · rintro ⟨h1, h2⟩
    simp only [parse_number, if_neg h, normalizeSeps, h1, h2]
    simp
  · intro h1
    simp only [parse_number, if_neg h, normalizeSeps, h1]
    simp
  · have heq : parse_number "1.234,56" =
        some (((1234 : ℕ) : ℚ) + ((56 : ℕ) : ℚ) / (10 : ℚ) ^ (2 : ℕ)) := rfl
    rw [heq]
    norm_num
  · have heq : parse_number "29,59" =
        some (((29 : ℕ) : ℚ) + ((59 : ℕ) : ℚ) / (10 : ℚ) ^ (2 : ℕ)) := rfl
    rw [heq]
    norm_num

/-- Witness for C2: the empty/none rule at `" none "` and the comma-only
rule at `"1,5"`. -/
theorem parse_number_separator_cases_witness :
    parse_number " none " = some 0
  ∧ parse_number "1,5" = pyFloat (replaceChar ',' '.' (sepInput "1,5")) :=
  ⟨(parse_number_separator_cases " none ").1 (by decide),
   ((parse_number_separator_cases "1,5").2.1 (by decide)).2.1 (by decide)⟩

/-- C3: in the free-text calculator, any line failure aborts the whole
batch: the result is `(none, error)` with no partial total; in particular
`"pollo 200 g\nhuevo 2"` with `huevo` absent from the catalog yields
`(none, UnknownItem "huevo")` even though the first line alone is valid and
`"pollo 200 g"` alone yields `(some 330, none)`. -/
theorem calculate_from_text_all_or_nothing :
    (∀ (foods : List Food) (raw l : String),
      l ∈ splitTextLines raw → (∃ e, calcTextLine foods l = Except.error e) →
      (calculate_from_text foods raw).1 = none
        ∧ ∃ e, (calculate_from_text foods raw).2 = some e)
  ∧ calculate_from_text [⟨"pollo", "100g", 165⟩] "pollo 200 g\nhuevo 2" =
      (none, some (TextErr.unknownItem "huevo"))
  ∧ calculate_from_text [⟨"pollo", "100g", 165⟩] "pollo 200 g" = (some 330, none) := by
  refine ⟨?_, rfl, ?_⟩
  · intro foods raw l hmem herr
    rcases calcTextLines_error_of_mem foods (splitTextLines raw) l hmem herr with ⟨e, he⟩
    constructor
    · simp only [calculate_from_text, he]
    · exact ⟨e, by simp only [calculate_from_text, he]⟩
  · have h : calculate_from_text [⟨"pollo", "100g", 165⟩] "pollo 200 g" =
        (some (((200 : ℕ) : ℚ) / 100 * 165 + 0), none) := rfl
    rw [h]
    norm_num

/-- Witness for C3: the abort law applied to the single unknown-item line
`"huevo 2"` against the empty catalog. -/
theorem calculate_from_text_all_or_nothing_witness :
    (calculate_from_text [] "huevo 2").1 = none
      ∧ ∃ e, (calculate_from_text [] "huevo 2").2 = some e :=
  calculate_from_text_all_or_nothing.1 [] "huevo 2" "huevo 2" (by decide)
    ⟨TextErr.unknownItem "huevo", rfl⟩

/-- C4: structured-mode calculation never fails: a line with an empty name
or a non-positive quantity, or whose name does not match any catalog row, is
skipped silently, contributing nothing to the total and nothing to the
breakdown; a single line naming a nonexistent item gives total `0` and an
empty breakdown. -/
theorem calc_items_silent_skip (foods : List Food) (name : String) (qty : ℚ)
    (rest : List (String × ℚ)) :
    ((name = "" ∨ qty ≤ 0) → calcLines foods ((name, qty) :: rest) = calcLines foods rest)
  ∧ (List.find? (fun f => f.alimento == name) foods = none →
      calcLines foods ((name, qty) :: rest) = calcLines foods rest)
  ∧ calc_items [⟨"pollo", "100g", 165⟩] [("nonexistent", 50)] 0 =
      (0, [], { items := [], kcal_libres := 0 }) :=
  ⟨fun h => calcLines_cons_skip foods name qty rest (Or.inl h),
   fun h => calcLines_cons_skip foods name qty rest (Or.inr h), rfl⟩

/-- Witness for C4: an empty-name line and an unmatched line are both
dropped. -/
theorem calc_items_silent_skip_witness :
    calcLines [] [("", 1)] = calcLines [] ([] : List (String × ℚ))
  ∧ calcLines [] [("x", 1)] = calcLines [] ([] : List (String × ℚ)) :=
  ⟨(calc_items_silent_skip [] "" 1 []).1 (Or.inl rfl),
   (calc_items_silent_skip [] "x" 1 []).2.1 rfl⟩

/-- C5: `parse_number` fails exactly when the trimmed input is neither empty
nor the literal `none` and its separator-normalized form is not a valid
floating-point literal; `"abc"` fails while `"29,59"` succeeds. -/
theorem parse_number_failure_iff (x : String) :
    (parse_number x = none ↔
      (¬(pythonStrip x = "" ∨ strToLower (pythonStrip x) = "none")
        ∧ pyFloat (normalizeSeps (sepInput x)) = none))
  ∧ parse_number "abc" = none
  ∧ parse_number "29,59" ≠ none := by
  refine ⟨?_, rfl, ?_⟩
  · by_cases h : pythonStrip x = "" ∨ strToLower (pythonStrip x) = "none"
    · simp [parse_number, h]
    · simp [parse_number, h]
  · intro hcon
    rw [show parse_number "29,59" =
        some (((29 : ℕ) : ℚ) + ((59 : ℕ) : ℚ) / (10 : ℚ) ^ (2 : ℕ)) from rfl] at hcon
    cases hcon

/-- C6: `safe_int` delegates to `parse_number` and rounds the result to a
nearest integer (at most one half away), with the same empty/none handling
returning `0`; `safe_int "12,0" = 12`. -/
theorem safe_int_delegates (x : String) :
    safe_int x = (parse_number x).map pythonRound
  ∧ (∀ q : ℚ, |(pythonRound q : ℚ) - q| ≤ 1 / 2)
  ∧ safe_int "" = some 0 ∧ safe_int "NONE" = some 0 ∧ safe_int "12,0" = some 12 := by
  have h12 : safe_int "12,0" = some 12 := by
    have h : safe_int "12,0" =
        some (pythonRound (((12 : ℕ) : ℚ) + ((0 : ℕ) : ℚ) / (10 : ℚ) ^ (1 : ℕ))) := rfl
    rw [h, show (((12 : ℕ) : ℚ) + ((0 : ℕ) : ℚ) / (10 : ℚ) ^ (1 : ℕ)) = ((12 : ℤ) : ℚ)
      by norm_num, pythonRound_intCast]
  refine ⟨?_, pythonRound_nearest, rfl, rfl, h12⟩
  by_cases h : pythonStrip x = "" ∨ strToLower (pythonStrip x) = "none"
  · have hz : pythonRound ((0 : ℤ) : ℚ) = 0 := pythonRound_intCast 0
    simp only [Int.cast_zero] at hz
    simp only [safe_int, parse_number, if_pos h, Option.map_some', hz]
  · simp only [safe_int, if_neg h, parse_number_pythonStrip]

/-- C7: a positive `kcal_libres` is added directly to the total and appends
the breakdown line `"Kcal libres: <k> kcal"` after all item lines; a
non-positive `kcal_libres` leaves both the total and the breakdown
unchanged. -/
theorem calc_items_free_kcal (foods : List Food) (rows : List (String × ℚ)) (k : ℤ) :
    (0 < k →
      (calc_items foods rows k).1 = (calc_items foods rows 0).1 + (k : ℚ)
    ∧ (calc_items foods rows k).2.1 =
        (calc_items foods rows 0).2.1 ++ ["Kcal libres: " ++ toString k ++ " kcal"])
  ∧ (¬ 0 < k →
      (calc_items foods rows k).1 = (calc_items foods rows 0).1
    ∧ (calc_items foods rows k).2.1 = (calc_items foods rows 0).2.1) := by
  have h0fst : (calc_items foods rows 0).1 = (calcLines foods rows).1 := by
    simp [calc_items]
  have h0snd : (calc_items foods rows 0).2.1 = (calcLines foods rows).2.1 := by
    simp [calc_items]
  constructor
  · intro hk
    have hcond : (k ≠ 0 ∧ 0 < k) := ⟨by omega, hk⟩
    constructor
    · rw [h0fst]
      simp only [calc_items, if_pos hcond]
    · rw [h0snd]
      simp only [calc_items, if_pos hcond]
  · intro hk
    have hcond : ¬(k ≠ 0 ∧ 0 < k) := fun hc => hk hc.2
    constructor
    · rw [h0fst]
      simp only [calc_items, if_neg hcond]
    · rw [h0snd]
      simp only [calc_items, if_neg hcond]

/-- Witness for C7: kcal libres 5 is added with its breakdown line; kcal
libres -3 changes nothing. -/
theorem calc_items_free_kcal_witness :
    ((calc_items [] [] 5).1 = (calc_items [] [] 0).1 + ((5 : ℤ) : ℚ)
      ∧ (calc_items [] [] 5).2.1 =
          (calc_items [] [] 0).2.1 ++ ["Kcal libres: " ++ toString (5 : ℤ) ++ " kcal"])
  ∧ ((calc_items [] [] (-3)).1 = (calc_items [] [] 0).1
      ∧ (calc_items [] [] (-3)).2.1 = (calc_items [] [] 0).2.1) :=
  ⟨(calc_items_free_kcal [] [] 5).1 (by norm_num),
   (calc_items_free_kcal [] [] (-3)).2 (by norm_num)⟩

/-- C8: the daily-goal evaluator is a pair of pure functions on fixed
constants: `goal_for true = 1950`, `goal_for false = 1700`, and
`delta total goal = total - goal`, positive exactly when the total exceeds
the goal. -/
theorem goal_for_delta_spec :
    goal_for true = 1950 ∧ goal_for false = 1700
  ∧ (∀ (t : ℚ) (g : ℤ), delta t g = t - g)
  ∧ (∀ (t : ℚ) (g : ℤ), 0 < delta t g ↔ (g : ℚ) < t) := by
  refine ⟨rfl, rfl, fun t g => rfl, fun t g => ?_⟩
  rw [delta, sub_pos]

/-- C9: structured-mode calculation is deterministic: two invocations with
identical catalog, line list and free kcal yield identical results — in the
embedding the catalog is an explicit argument and `calc_items` is a pure
function of its three inputs. -/
theorem calc_items_deterministic (foods foods' : List Food)
    (rows rows' : List (String × ℚ)) (k k' : ℤ)
    (h1 : foods = foods') (h2 : rows = rows') (h3 : k = k') :
    calc_items foods rows k = calc_items foods' rows' k' := by
  rw [h1, h2, h3]

/-- Witness for C9: two identical invocations coincide. -/
theorem calc_items_deterministic_witness :
    calc_items [⟨"pollo", "100g", 165⟩] [("pollo", 200)] 0 =
      calc_items [⟨"pollo", "100g", 165⟩] [("pollo", 200)] 0 :=
  calc_items_deterministic [⟨"pollo", "100g", 165⟩] [⟨"pollo", "100g", 165⟩]
    [("pollo", 200)] [("pollo", 200)] 0 0 rfl rfl rfl

/-- C10: any catalog row whose pricing-mode string differs from exactly
`"100g"` — `"unidad"`, the empty string, or any other value — is priced per
unit: the line contributes `quantity * unit_value`, with its breakdown label
and payload entry, and there is no error or skip branch for an unrecognized
mode. -/
theorem calc_items_unrecognized_mode (foods : List Food) (name : String) (qty : ℚ)
    (rest : List (String × ℚ)) (food : Food)
    (hname : name ≠ "") (hqty : 0 < qty)
    (hfind : List.find? (fun f => f.alimento == name) foods = some food)
    (htipo : food.tipo ≠ "100g") :
    calcLines foods ((name, qty) :: rest) =
      (qty * food.valor_kcal + (calcLines foods rest).1,
       (name ++ ": " ++ toString (pythonRound (qty * food.valor_kcal)) ++ " kcal")
         :: (calcLines foods rest).2.1,
       { alimento := name, cantidad := pyTrunc qty, tipo := food.tipo,
         valor_kcal := food.valor_kcal, kcal := qty * food.valor_kcal }
         :: (calcLines foods rest).2.2) := by
  have hvalid : ¬(name = "" ∨ qty ≤ 0) := by
    push_neg
    exact ⟨hname, hqty⟩
  rw [calcLines_cons_found foods name qty rest food hvalid hfind, if_neg htipo]

/-- Witness for C10: a row whose mode string is empty (malformed) is priced
per unit. -/
theorem calc_items_unrecognized_mode_witness :
    calcLines [⟨"x", "", 70⟩] [("x", 3)] =
      ((3 : ℚ) * 70 + (calcLines [⟨"x", "", 70⟩] []).1,
       ("x" ++ ": " ++ toString (pythonRound ((3 : ℚ) * 70)) ++ " kcal")
         :: (calcLines [⟨"x", "", 70⟩] []).2.1,
       { alimento := "x", cantidad := pyTrunc 3, tipo := "", valor_kcal := 70,
         kcal := (3 : ℚ) * 70 } :: (calcLines [⟨"x", "", 70⟩] []).2.2) :=
  calc_items_unrecognized_mode [⟨"x", "", 70⟩] "x" 3 [] ⟨"x", "", 70⟩
    (by decide) (by norm_num) rfl (by decide)
